import Mathlib

set_option allowUnsafeReducibility true
attribute [semireducible] Rat.add Rat.mul Rat.sub Rat.inv Rat.div

/-!
Shallow embedding of the pipeline control core of `uxai-ugc-agent`
(`agents/orchestrator.py`, `agents/qa_reviewer.py`, `main.py`).

Python dynamic values are modelled by the inductive `Val`; timestamps are
rationals; `time.time()` is replaced by an explicit clock threaded through
the orchestrator state; collaborator calls are `Except`-valued (an
exception becomes `.error`); the `threading.Event` rendezvous of a review
gate is modelled by the list of override submissions that arrive while the
gate is open, each tagged with its wall-clock time.
-/

/-- Dynamic (JSON-like) Python value: `None`, booleans, numbers, strings,
lists and string-keyed dicts. -/
inductive Val : Type where
  | pynone : Val
  | bool : Bool → Val
  | num : ℚ → Val
  | str : String → Val
  | list : List Val → Val
  | dict : List (String × Val) → Val

/-- Python truthiness: `None`, `False`, `0`, `""`, `[]`, `{}` are falsy. -/
def Val.truthy : Val → Bool
  | .pynone => false
  | .bool b => b
  | .num q => q ≠ 0
  | .str s => s ≠ ""
  | .list xs => !xs.isEmpty
  | .dict es => !es.isEmpty

/-- Truthiness of an optional value (`None` for a missing one). -/
def optTruthy : Option Val → Bool
  | none => false
  | some v => v.truthy

/-- Lookup in a dict entry list (first binding wins, as in a Python dict
where keys are unique). -/
def dlookup : List (String × Val) → String → Option Val
  | [], _ => none
  | (k, v) :: es, key => if k = key then some v else dlookup es key

/-- Python `d[key] = v`: replace the binding in place if the key exists,
else append it. -/
def dstore : List (String × Val) → String → Val → List (String × Val)
  | [], key, v => [(key, v)]
  | (k, w) :: es, key, v =>
      if k = key then (k, v) :: es else (k, w) :: dstore es key v

/-- Python `d[key]` on a `Val`: `KeyError` / `TypeError` become `.error`. -/
def dget : Val → String → Except String Val
  | .dict es, key =>
      match dlookup es key with
      | some v => .ok v
      | none => .error ("KeyError: " ++ key)
  | _, _ => .error "TypeError: not a dict"

/-- Python `d.get(key)` on a dict entry list: `None` when absent. -/
def dgetOpt (es : List (String × Val)) (key : String) : Val :=
  match dlookup es key with
  | some v => v
  | none => .pynone

/-- Python `round` to an integer: round half to even (banker's rounding)
on the exact rational value. -/
def pyRoundInt (q : ℚ) : ℤ :=
  if Int.fract q < 1/2 then ⌊q⌋
  else if 1/2 < Int.fract q then ⌊q⌋ + 1
  else if ⌊q⌋ % 2 = 0 then ⌊q⌋ else ⌊q⌋ + 1

/-- Python `round(x, 1)`. -/
def round1 (q : ℚ) : ℚ := (pyRoundInt (q * 10) : ℚ) / 10

/-- Python `round(x, 2)`. -/
def round2 (q : ℚ) : ℚ := (pyRoundInt (q * 100) : ℚ) / 100

/-! ### QAReviewerAgent.review_script (`agents/qa_reviewer.py`, lines 35-96)

The LLM call `self.llm.complete_json(...)` is abstracted as an
`Except String Val`: `.error` models the call raising. Everything after it
is transliterated: the whole body sits in one `try`, so any exception —
from the call itself, from `review["iteration"] = iteration` on a
non-dict, or from comparing a non-numeric `review["overall_score"]` with
the float threshold — lands in the `except` branch, which returns the
fallback verdict `{overall_score: 0.0, approved: False, must_fix: [],
iteration, error}` instead of propagating. -/

/-- Fallback verdict returned by `review_script`'s `except` branch. -/
def fallbackReview (iteration : ℕ) (e : String) : Val :=
  .dict [("overall_score", .num 0), ("approved", .bool false),
         ("must_fix", .list []), ("iteration", .num iteration), ("error", .str e)]

/-- Numeric view of a `Val` for a Python `>=` comparison against a float:
numbers compare as themselves, booleans as 0/1, anything else raises. -/
def numView : Val → Option ℚ
  | .num q => some q
  | .bool b => some (if b then 1 else 0)
  | _ => none

/-- `QAReviewerAgent.review_script`, given the result of the LLM call.
Sets `review["iteration"]`, then recomputes `review["approved"]` as
`review["overall_score"] >= threshold`, overriding whatever the LLM set;
every exception path yields the fallback verdict. -/
def review_script (threshold : ℚ) (llmRes : Except String Val)
    (iteration : ℕ) : Val :=
  match llmRes with
  | .error e => fallbackReview iteration e
  | .ok v =>
      match v with
      | .dict es =>
          let es1 := dstore es "iteration" (.num iteration)
          match numView (dgetOpt es1 "overall_score") with
          | some q =>
              .dict (dstore es1 "approved" (.bool (threshold ≤ q)))
          | none => fallbackReview iteration "TypeError"
      | _ => fallbackReview iteration "TypeError"

/-! ### QAReviewerAgent.improve_loop (`agents/qa_reviewer.py`, lines 163-206)

`reviewLlm script i` is the LLM call made by `review_script` on iteration
`i`; `refine script verdict` is `writer_agent.refine_script`, which may
raise (`.error`), and whose exception propagates out of the loop. The
ghost counters `reviewCalls`/`reviseCalls` count the calls made; they are
not part of the Python return dict (see `loopResToVal`). -/

/-- Result of `improve_loop`, with ghost call counters. -/
structure LoopRes where
  final_script : Val
  final_review : Val
  iterations_taken : ℕ
  auto_approved : Bool
  reviewCalls : ℕ
  reviseCalls : ℕ

/-- Truthiness test `if current_review["approved"]:` used by the loop. -/
def revApproved (review : Val) : Bool :=
  match dget review "approved" with
  | .ok v => v.truthy
  | .error _ => false

/-- One `while iterations < max_iterations` loop of `improve_loop`,
recursing on `remaining = max_iterations - iterations`. -/
def improveLoopAux (threshold : ℚ) (reviewLlm : Val → ℕ → Except String Val)
    (refine : Val → Val → Except String Val) :
    ℕ → Val → Val → ℕ → ℕ → ℕ → Except String LoopRes
  | 0, script, review, iterations, rc, vc =>
      .ok ⟨script, review, iterations, false, rc, vc⟩
  | rem + 1, script, _review, iterations, rc, vc =>
      let its := iterations + 1
      let rev := review_script threshold (reviewLlm script its) its
      if revApproved rev then
        .ok ⟨script, rev, its, false, rc + 1, vc⟩
      else if 0 < rem then
        match refine script rev with
        | .error e => .error e
        | .ok script2 =>
            improveLoopAux threshold reviewLlm refine rem script2 rev its
              (rc + 1) (vc + 1)
      else
        .ok ⟨script, rev, its, true, rc + 1, vc⟩

/-- `QAReviewerAgent.improve_loop`. The initial `current_review` is
`{"approved": False, "overall_score": 0.0}`. -/
def improve_loop (threshold : ℚ) (max_iterations : ℕ)
    (reviewLlm : Val → ℕ → Except String Val)
    (refine : Val → Val → Except String Val) (script : Val) :
    Except String LoopRes :=
  improveLoopAux threshold reviewLlm refine max_iterations script
    (.dict [("approved", .bool false), ("overall_score", .num 0)]) 0 0 0

/-- The dict `improve_loop` returns to the orchestrator (ghost counters
are not part of it). -/
def loopResToVal (r : LoopRes) : Val :=
  .dict [("final_script", r.final_script), ("final_review", r.final_review),
         ("iterations_taken", .num r.iterations_taken),
         ("auto_approved", .bool r.auto_approved)]

/-! ### Orchestrator state (`agents/orchestrator.py`, lines 23-59) -/

/-- Per-step lifecycle status. -/
inductive StepStatus : Type where
  | pending | running | review | done | error
  deriving DecidableEq

/-- One entry of `self.step_data`. -/
structure StepData where
  status : StepStatus
  start_ts : Option ℚ
  end_ts : Option ℚ
  duration_s : Option ℚ
  deriving DecidableEq

/-- Pipeline-level status. -/
inductive PipeStatus : Type where
  | idle | running | paused | completed | failed
  deriving DecidableEq

/-- Events emitted through `self._emit` / `submit_human_override` (the
fields the claims refer to; payload rendering is omitted). -/
inductive Event : Type where
  | step_start (step : String) (start_ts : ℚ)
  | step_complete (step : String) (duration_s end_ts : ℚ)
  | step_error (step : String) (error : String)
  | review_window_open (step : String) (timeout start_ts : ℚ)
  | override_received (step : String)
  | review_window_timeout (step : String)
  deriving DecidableEq

/-- `self.pending_review` when non-null. -/
structure Pending where
  step : String
  data : Val
  timeout_at : ℚ

/-- Orchestrator state. `now` is the model wall clock (each `time.time()`
reads it); `events` is the ghost log of emitted events; `manifestWritten`
is a ghost flag set exactly when `_write_manifest` writes the file. -/
structure Orch where
  session_id : Option String
  current_step : Option String
  status : PipeStatus
  start_time : Option ℚ
  overrides : List (String × Val)
  results : List (String × Val)
  pending_review : Option Pending
  step_data : String → StepData
  now : ℚ
  events : List Event
  manifestWritten : Bool

/-- The fixed 14-step sequence `self.steps_list`. -/
def steps_list : List String :=
  ["research", "review_research", "ideation", "scripting",
   "review_script", "qa_loop", "review_qa", "voiceover",
   "avatar_clips", "images", "assembly", "qa_video",
   "metadata", "finalize"]

/-- Initial per-step entry created in `__init__`. -/
def initStepData : StepData := ⟨.pending, none, none, none⟩

/-- Freshly constructed orchestrator with clock at `t0`. -/
def initOrch (t0 : ℚ) : Orch :=
  { session_id := none, current_step := none, status := .idle,
    start_time := none, overrides := [], results := [],
    pending_review := none, step_data := fun _ => initStepData,
    now := t0, events := [], manifestWritten := false }

/-- Overwrite one step's entry in `self.step_data`. -/
def updStep (st : Orch) (step : String) (sd : StepData) : Orch :=
  { st with step_data := fun s => if s = step then sd else st.step_data s }

/-- `self._emit`. -/
def emit (st : Orch) (e : Event) : Orch :=
  { st with events := st.events ++ [e] }

/-! ### Orchestrator._execute_step (`agents/orchestrator.py`, lines 72-118)

The collaborator call is a value `call : Except String Val` (`.error`
models the function raising) taking `dur` seconds of wall time. -/

/-- `Orchestrator._execute_step`. -/
def _execute_step (st0 : Orch) (step : String) (call : Except String Val)
    (dur : ℚ) : Except String Val × Orch :=
  let st := { st0 with current_step := some step }
  let t_start := st.now
  let st := updStep st step ⟨.running, some t_start, none, none⟩
  let st := emit st (.step_start step t_start)
  match call with
  | .ok result =>
      let st := { st with results := dstore st.results step result }
      let t_end := t_start + dur
      let duration := round1 (t_end - t_start)
      let st := updStep { st with now := t_end } step
                  ⟨.done, some t_start, some t_end, some duration⟩
      let st := emit st (.step_complete step duration t_end)
      (.ok result, st)
  | .error e =>
      let st := { st with status := .failed }
      let t_end := t_start + dur
      let st := updStep { st with now := t_end } step
                  ⟨.error, some t_start, some t_end, some (round1 (t_end - t_start))⟩
      let st := emit st (.step_error step e)
      (.error e, st)

/-! ### Orchestrator._human_review_window (lines 120-174) and
submit_human_override (lines 170-174)

The gate clears the event and calls `self.review_event.wait(timeout)`.
`submit_human_override(step, data)` — called from the control-surface
thread — stores `overrides[step] = data`, emits "override_received" and
sets the event for ANY step, so the first submission whose wall-clock time
falls inside the open window wakes the gate, whichever step it names.
`subs` lists the submissions arriving during this gate's window in
arrival order. -/

/-- An asynchronous `submit_human_override(step, data)` call at time
`time`. -/
structure Submission where
  step : String
  data : Val
  time : ℚ

/-- Does a submission arrive while the window `[t_start, deadline)` is
open? -/
def inWindow (t_start deadline : ℚ) (sub : Submission) : Bool :=
  t_start ≤ sub.time && sub.time < deadline

/-- `Orchestrator._human_review_window`. -/
def _human_review_window (st0 : Orch) (step : String) (data : Val)
    (timeout : ℚ) (subs : List Submission) : Val × Orch :=
  let t_start := st0.now
  let st := updStep st0 step ⟨.review, some t_start, none, none⟩
  let st := { st with current_step := some step,
                      pending_review := some ⟨step, data, t_start + timeout⟩ }
  let st := emit st (.review_window_open step timeout t_start)
  match subs.find? (inWindow t_start (t_start + timeout)) with
  | some sub =>
      let st := emit { st with overrides := dstore st.overrides sub.step sub.data }
                  (.override_received sub.step)
      let t_end := sub.time
      let duration := round1 (t_end - t_start)
      let st := updStep { st with now := t_end } step
                  ⟨.done, some t_start, some t_end, some duration⟩
      let st := { st with pending_review := none }
      let ret := match dlookup st.overrides step with
                 | some v => if v.truthy then v else data
                 | none => data
      (ret, st)
  | none =>
      let t_end := t_start + timeout
      let duration := round1 (t_end - t_start)
      let st := updStep { st with now := t_end } step
                  ⟨.done, some t_start, some t_end, some duration⟩
      let st := emit st (.review_window_timeout step)
      let st := { st with pending_review := none }
      (data, st)

/-! ### Orchestrator.get_status per-step snapshot (lines 257-271) -/

/-- Truthiness of an optional timestamp (`if sd["start_ts"]:` — a float
`0.0` is falsy in Python). -/
def tsTruthy : Option ℚ → Bool
  | none => false
  | some t => t ≠ 0

/-- One entry of the `steps` map returned by `get_status`. -/
structure StepSnap where
  status : StepStatus
  start_ts : Option ℚ
  end_ts : Option ℚ
  duration_s : Option ℚ
  deriving DecidableEq

/-- Per-step snapshot built by `get_status`: timestamps are included when
truthy; `duration_s` is the stored value when it `is not None`, else a
live `round(now - start_ts, 1)` — but only when the status is exactly
`"running"` and `start_ts` is truthy. -/
def stepSnapshot (sd : StepData) (now : ℚ) : StepSnap :=
  { status := sd.status
    start_ts := if tsTruthy sd.start_ts then sd.start_ts else none
    end_ts := if tsTruthy sd.end_ts then sd.end_ts else none
    duration_s :=
      match sd.duration_s with
      | some d => some d
      | none =>
          match sd.status, sd.start_ts with
          | .running, some t =>
              if t ≠ 0 then some (round1 (now - t)) else none
          | _, _ => none }

/-! ### main.py /api/run route (lines 74-90) -/

/-- Response of the `/api/run` route. -/
inductive ApiRunResp : Type where
  | busy
  | started (session_id : Option String)
  deriving DecidableEq

/-- The `/api/run` handler: reject with a 400 "Pipeline is already
running" if `orchestrator.status == "running"`, else spawn the run in a
background thread. The returned `Bool` records whether a run thread was
started; in the busy branch the orchestrator state is untouched. -/
def api_run (st : Orch) : ApiRunResp × Orch × Bool :=
  if st.status = .running then (.busy, st, false)
  else (.started st.session_id, st, true)

/-! ### Orchestrator._write_manifest (lines 290-309) -/

/-- `self.results.get(step, {})`. -/
def resGet (st : Orch) (step : String) : Val :=
  match dlookup st.results step with
  | some v => v
  | none => .dict []

/-- Python `v.get(key, dflt)`: `.error` when `v` is not a dict
(`AttributeError`). -/
def valGetAttr (v : Val) (key : String) (dflt : Val) : Except String Val :=
  match v with
  | .dict es =>
      .ok (match dlookup es key with | some w => w | none => dflt)
  | _ => .error "AttributeError"

/-- `Orchestrator._write_manifest`: builds the summary dict, writes
`final_manifest.json` (ghost flag) and stores the dict under
`results["finalize"]`. `created_at` stands for
`datetime.now().isoformat()`. -/
def _write_manifest (st : Orch) (created_at : String) : Except String Orch :=
  match valGetAttr (resGet st "research") "pain_points" (.list []) with
  | .error e => .error e
  | .ok research_summary =>
  match valGetAttr (resGet st "qa_loop") "final_script" .pynone with
  | .error e => .error e
  | .ok script =>
  match valGetAttr (resGet st "qa_loop") "final_review" .pynone with
  | .error e => .error e
  | .ok qa_scores =>
  match valGetAttr (resGet st "qa_loop") "iterations_taken" (.num 0) with
  | .error e => .error e
  | .ok iterations_taken =>
  let data := Val.dict
    [("session_id", match st.session_id with | some s => .str s | none => .pynone),
     ("created_at", .str created_at),
     ("pipeline_duration_seconds",
        .num (round2 (st.now - (match st.start_time with | some t => t | none => 0)))),
     ("research_summary", research_summary),
     ("script", script),
     ("qa_scores", qa_scores),
     ("media_files", resGet st "assembly"),
     ("social_metadata", resGet st "metadata"),
     ("iterations_taken", iterations_taken)]
  .ok { st with manifestWritten := true,
                results := dstore st.results "finalize" data }

/-! ### Orchestrator.run_pipeline (lines 176-241)

A run scenario fixes the configuration, each collaborator call's outcome
(`.error` models the function raising) and wall-time, and the override
submissions arriving during each review gate's window. `reviewLlm` takes
the research context, the current script and the iteration number, as
`review_script(current_script, research_data, iterations)` does. -/

/-- The behaviours of one pipeline run's environment. -/
structure Scenario where
  session_id : String
  created_at : String
  T : ℚ
  threshold : ℚ
  max_iterations : ℕ
  durs : String → ℚ
  researchR : Except String Val
  ideateR : Except String Val
  scriptR : Except String Val
  reviewLlm : Val → Val → ℕ → Except String Val
  refineR : Val → Val → Except String Val
  voiceR : Except String Val
  avatarR : Except String Val
  imagesR : Except String Val
  assembleR : Except String Val
  techR : Except String Val
  metaR : Except String Val
  subs : String → List Submission

/-- `Orchestrator.run_pipeline`: the 14-step sequence. Argument
extractions such as `ideation["selected_idea"]` happen in `run_pipeline`
itself, outside `_execute_step`; an exception there is caught only by the
outer `try`, which sets `status = "failed"` and re-raises without touching
any step state. (Extractions of an expression already extracted
successfully are not repeated.) -/
def run_pipeline (st0 : Orch) (sc : Scenario) : Except String Val × Orch :=
  let st := { st0 with session_id := some sc.session_id,
                       start_time := some st0.now, status := .running }
  match _execute_step st "research" sc.researchR (sc.durs "research") with
  | (.error e, st) => (.error e, st)
  | (.ok research0, st) =>
  let (research, st) :=
    _human_review_window st "review_research" research0 sc.T
      (sc.subs "review_research")
  match _execute_step st "ideation" sc.ideateR (sc.durs "ideation") with
  | (.error e, st) => (.error e, st)
  | (.ok ideation, st) =>
  match dget ideation "selected_idea" with
  | .error e => (.error e, { st with status := .failed })
  | .ok _selected_idea =>
  match _execute_step st "scripting" sc.scriptR (sc.durs "scripting") with
  | (.error e, st) => (.error e, st)
  | (.ok script0, st) =>
  let (script1, st) :=
    _human_review_window st "review_script" script0 sc.T
      (sc.subs "review_script")
  let qaE := improve_loop sc.threshold sc.max_iterations
               (fun s i => sc.reviewLlm research s i) sc.refineR script1
  match _execute_step st "qa_loop" (qaE.map loopResToVal) (sc.durs "qa_loop") with
  | (.error e, st) => (.error e, st)
  | (.ok qa_res, st) =>
  match dget qa_res "final_script" with
  | .error e => (.error e, { st with status := .failed })
  | .ok final_script0 =>
  match dget qa_res "final_review" with
  | .error e => (.error e, { st with status := .failed })
  | .ok final_review =>
  match valGetAttr final_review "overall_score" .pynone with
  | .error e => (.error e, { st with status := .failed })
  | .ok qa_score =>
  match dget qa_res "auto_approved" with
  | .error e => (.error e, { st with status := .failed })
  | .ok auto_app =>
  let wrapper := Val.dict [("script", final_script0), ("qa_score", qa_score),
                           ("auto_approved", auto_app)]
  let (reviewed, st) :=
    _human_review_window st "review_qa" wrapper sc.T (sc.subs "review_qa")
  let final_script :=
    match reviewed with
    | .dict es => if (dlookup es "script").isSome then dgetOpt es "script"
                  else .dict es
    | v => v
  match dget final_script "segments" with
  | .error e => (.error e, { st with status := .failed })
  | .ok _segments =>
  match _execute_step st "voiceover" sc.voiceR (sc.durs "voiceover") with
  | (.error e, st) => (.error e, st)
  | (.ok _audio_paths, st) =>
  match _execute_step st "avatar_clips" sc.avatarR (sc.durs "avatar_clips") with
  | (.error e, st) => (.error e, st)
  | (.ok _clip_paths, st) =>
  match _execute_step st "images" sc.imagesR (sc.durs "images") with
  | (.error e, st) => (.error e, st)
  | (.ok _image_paths, st) =>
  match _execute_step st "assembly" sc.assembleR (sc.durs "assembly") with
  | (.error e, st) => (.error e, st)
  | (.ok video_manifest, st) =>
  match dget video_manifest "vertical_720p" with
  | .error e => (.error e, { st with status := .failed })
  | .ok _v720 =>
  match _execute_step st "qa_video" sc.techR (sc.durs "qa_video") with
  | (.error e, st) => (.error e, st)
  | (.ok _tech_qa, st) =>
  match _execute_step st "metadata" sc.metaR (sc.durs "metadata") with
  | (.error e, st) => (.error e, st)
  | (.ok _social_data, st) =>
  match _write_manifest st sc.created_at with
  | .error e => (.error e, { st with status := .failed })
  | .ok st =>
  let st := { st with status := .completed }
  match dlookup st.results "finalize" with
  | some m => (.ok m, st)
  | none => (.error "KeyError: finalize", { st with status := .failed })

/-! ### Supporting lemmas -/

theorem dlookup_dstore_self (es : List (String × Val)) (k : String) (v : Val) :
    dlookup (dstore es k v) k = some v := by
  induction es with
  | nil => simp [dstore, dlookup]
  | cons e es ih =>
      obtain ⟨k1, v1⟩ := e
      by_cases h : k1 = k
      · subst h; simp [dstore, dlookup]
      · simp [dstore, dlookup, h, ih]

theorem dlookup_dstore_ne (es : List (String × Val)) (k k2 : String) (v : Val)
    (h : k2 ≠ k) : dlookup (dstore es k v) k2 = dlookup es k2 := by
  induction es with
  | nil => simp [dstore, dlookup, Ne.symm h]
  | cons e es ih =>
      obtain ⟨k1, v1⟩ := e
      by_cases h1 : k1 = k
      · subst h1; simp [dstore, dlookup, Ne.symm h]
      · simp [dstore, dlookup, h1, ih]

/-! ### C9 -/

/-- C9: the claim says the stored `duration_s` equals `end_ts - start_ts`
exactly. It does not: `_execute_step` stores `round(t_end - t_start, 1)`.
Running a step that succeeds after 0.17 seconds stores `duration_s = 0.2`
while `end_ts - start_ts = 0.17`. -/
theorem c9_counterexample :
    ((_execute_step (initOrch 0) "research" (.ok .pynone) (17/100)).2.step_data
        "research").status = .done ∧
    ((_execute_step (initOrch 0) "research" (.ok .pynone) (17/100)).2.step_data
        "research").start_ts = some 0 ∧
    ((_execute_step (initOrch 0) "research" (.ok .pynone) (17/100)).2.step_data
        "research").end_ts = some (17/100) ∧
    ((_execute_step (initOrch 0) "research" (.ok .pynone) (17/100)).2.step_data
        "research").duration_s = some (1/5) ∧
    (1/5 : ℚ) ≠ 17/100 - 0 := by
  refine ⟨by decide, by decide, by decide, by decide, by decide⟩

/-- C9 (amended): for every step marked running and then done by a
successful collaborator call, `status = done`, `start_ts`/`end_ts` bracket
the call, and the stored `duration_s` is `end_ts - start_ts` rounded to
one decimal place (`round(t_end - t_start, 1)`), not the exact
difference. -/
theorem c9_mark_running_then_done (st : Orch) (step : String) (v : Val) (d : ℚ) :
    ((_execute_step st step (.ok v) d).2.step_data step).status = .done ∧
    ((_execute_step st step (.ok v) d).2.step_data step).start_ts = some st.now ∧
    ((_execute_step st step (.ok v) d).2.step_data step).end_ts = some (st.now + d) ∧
    ((_execute_step st step (.ok v) d).2.step_data step).duration_s
      = some (round1 d) := by
  refine ⟨?_, ?_, ?_, ?_⟩ <;> simp [_execute_step, updStep, emit, add_sub_cancel_left]

/-! ### C10 -/

/-- C10: the claim says the snapshot reports a live duration when the
status is running or review. The code checks `== "running"` only: a step
sitting in an open review gate (status `review`, `start_ts = 100`, no
stored duration) reports no duration at `now = 105`, where the claim
expects `5`. Moreover even for `running` the live value is rounded:
at `now - start_ts = 0.17` the snapshot reports `0.2`. -/
theorem c10_counterexample :
    (stepSnapshot ⟨.review, some 100, none, none⟩ 105).duration_s = none ∧
    (stepSnapshot ⟨.review, some 100, none, none⟩ 105).status = .review ∧
    (stepSnapshot ⟨.running, some 100, none, none⟩ (100 + 17/100)).duration_s
      = some (1/5) ∧
    (1/5 : ℚ) ≠ (100 + 17/100) - 100 := by
  refine ⟨by decide, by decide, by decide, by decide⟩

/-- C10 (amended): the per-step snapshot reports the stored duration when
one is set; otherwise, only when the status is exactly `running` and
`start_ts` is set and non-zero, it reports `round(now - start_ts, 1)`;
otherwise (including status `review`) it reports no duration. -/
theorem c10_snapshot_duration (sd : StepData) (now : ℚ) :
    (∀ d, sd.duration_s = some d → (stepSnapshot sd now).duration_s = some d) ∧
    (sd.duration_s = none → ∀ t, sd.status = .running → sd.start_ts = some t →
      t ≠ 0 → (stepSnapshot sd now).duration_s = some (round1 (now - t))) ∧
    (sd.duration_s = none →
      (sd.status ≠ .running ∨ sd.start_ts = none ∨ sd.start_ts = some 0) →
      (stepSnapshot sd now).duration_s = none) := by
  refine ⟨?_, ?_, ?_⟩
  · intro d hd; simp [stepSnapshot, hd]
  · intro hd t hs hts ht; simp [stepSnapshot, hd, hs, hts, ht]
  · intro hd h
    cases hst : sd.status <;> cases hts : sd.start_ts <;>
      simp_all [stepSnapshot, hd]

/-- C10 witness: the three branches of `c10_snapshot_duration` at concrete
inputs. -/
theorem c10_witness :
    (stepSnapshot ⟨.done, some 1, some 6, some 5⟩ 7).duration_s = some 5 ∧
    (stepSnapshot ⟨.running, some 2, none, none⟩ 3).duration_s
      = some (round1 (3 - 2)) ∧
    (stepSnapshot ⟨.review, some 2, none, none⟩ 3).duration_s = none :=
  ⟨(c10_snapshot_duration ⟨.done, some 1, some 6, some 5⟩ 7).1 5 rfl,
   (c10_snapshot_duration ⟨.running, some 2, none, none⟩ 3).2.1 rfl 2 rfl rfl
     (by decide),
   (c10_snapshot_duration ⟨.review, some 2, none, none⟩ 3).2.2 rfl
     (Or.inl (by decide))⟩

/-! ### C7 -/

/-- C7: a request to start a new pipeline run while the engine status is
`running` is rejected with the busy error (HTTP 400 "Pipeline is already
running"): no background run thread is started and the orchestrator state
— hence the in-flight run — is untouched. -/
theorem c7_busy_rejected (st : Orch) (h : st.status = .running) :
    api_run st = (.busy, st, false) := by
  simp [api_run, h]

/-- C7 witness: a running engine rejects a second run request. -/
theorem c7_witness :
    api_run { initOrch 0 with status := .running }
      = (.busy, { initOrch 0 with status := .running }, false) :=
  c7_busy_rejected { initOrch 0 with status := .running } rfl

/-! ### C1 -/

/-- C1: an open review gate with payload `data` and timeout `T` resolves
as specified: (a) if an override for the gate's own step arrives before
the deadline, the gate returns the override payload when it is non-empty
and the original payload otherwise; (b) if the deadline elapses with no
signal, it returns the original payload and emits "review_window_timeout".
In both branches `pending_review` is cleared to null and the step ends
with status `done` (never `error`) and a recorded end time. -/
theorem c1_review_gate (st : Orch) (step : String) (data O : Val) (T t : ℚ)
    (h1 : st.now ≤ t) (h2 : t < st.now + T) :
    ((_human_review_window st step data T [⟨step, O, t⟩]).1
        = (if O.truthy then O else data) ∧
      (_human_review_window st step data T [⟨step, O, t⟩]).2.pending_review
        = none ∧
      ((_human_review_window st step data T [⟨step, O, t⟩]).2.step_data
          step).status = .done ∧
      ((_human_review_window st step data T [⟨step, O, t⟩]).2.step_data
          step).end_ts = some t) ∧
    ((_human_review_window st step data T []).1 = data ∧
      (_human_review_window st step data T []).2.pending_review = none ∧
      ((_human_review_window st step data T []).2.step_data step).status
        = .done ∧
      ((_human_review_window st step data T []).2.step_data step).end_ts
        = some (st.now + T) ∧
      Event.review_window_timeout step
        ∈ (_human_review_window st step data T []).2.events) := by
  constructor
  · have hw : inWindow st.now (st.now + T) ⟨step, O, t⟩ = true := by
      simp [inWindow, h1, h2]
    refine ⟨?_, ?_, ?_, ?_⟩ <;>
      simp [_human_review_window, List.find?, hw, updStep, emit,
            dlookup_dstore_self]
  · refine ⟨?_, ?_, ?_, ?_, ?_⟩ <;>
      simp [_human_review_window, List.find?, updStep, emit]

/-- C1 witness: a gate on `review_research` with payload "P", timeout 120
and an override "O" for the same step submitted at t = 30; and the same
gate with no submission. -/
theorem c1_witness :
    ((_human_review_window (initOrch 0) "review_research" (.str "P") 120
        [⟨"review_research", .str "O", 30⟩]).1
        = (if (Val.str "O").truthy then .str "O" else .str "P") ∧
      (_human_review_window (initOrch 0) "review_research" (.str "P") 120
        [⟨"review_research", .str "O", 30⟩]).2.pending_review = none ∧
      ((_human_review_window (initOrch 0) "review_research" (.str "P") 120
        [⟨"review_research", .str "O", 30⟩]).2.step_data
          "review_research").status = .done ∧
      ((_human_review_window (initOrch 0) "review_research" (.str "P") 120
        [⟨"review_research", .str "O", 30⟩]).2.step_data
          "review_research").end_ts = some 30) ∧
    ((_human_review_window (initOrch 0) "review_research" (.str "P") 120
        []).1 = .str "P" ∧
      (_human_review_window (initOrch 0) "review_research" (.str "P") 120
        []).2.pending_review = none ∧
      ((_human_review_window (initOrch 0) "review_research" (.str "P") 120
        []).2.step_data "review_research").status = .done ∧
      ((_human_review_window (initOrch 0) "review_research" (.str "P") 120
        []).2.step_data "review_research").end_ts = some ((initOrch 0).now + 120) ∧
      Event.review_window_timeout "review_research"
        ∈ (_human_review_window (initOrch 0) "review_research" (.str "P") 120
            []).2.events) :=
  c1_review_gate (initOrch 0) "review_research" (.str "P") (.str "O") 120 30
    (by decide) (by decide)

/-! ### C6 -/

/-- C6: the claim says an override submitted for a step other than the
open gate's step has no effect on that gate — same return value and same
resolution branch as if the call had not occurred. It is false:
`submit_human_override` sets the shared event unconditionally, so the
foreign-step submission at t = 30 wakes the gate immediately: the gate
ends at 30 instead of the 120-second deadline and emits no
"review_window_timeout", while without the call it resolves by timeout at
120 and emits the event. -/
theorem c6_counterexample :
    (_human_review_window (initOrch 0) "review_research" (.str "P") 120
        [⟨"review_script", .str "O", 30⟩]).2.events.contains
      (.review_window_timeout "review_research") = false ∧
    ((_human_review_window (initOrch 0) "review_research" (.str "P") 120
        [⟨"review_script", .str "O", 30⟩]).2.step_data
      "review_research").end_ts = some 30 ∧
    (_human_review_window (initOrch 0) "review_research" (.str "P") 120
        []).2.events.contains (.review_window_timeout "review_research")
      = true ∧
    ((_human_review_window (initOrch 0) "review_research" (.str "P") 120
        []).2.step_data "review_research").end_ts = some 120 := by
  refine ⟨by decide, by decide, by decide, by decide⟩

/-- C6 (amended): an override submitted for a step `S` different from the
open gate's step `G` is accepted and stored in the overrides map, but it
also signals the shared event, waking the gate at the submission time: the
gate resolves through the signalled branch (no timeout event), returning
the override stored for `G` — the original payload when none is stored —
and ends the step `done` at the submission time. The stored payload `O`
is returned only by a gate that later opens for `S` itself and is woken
while `O` is still stored. -/
theorem c6_foreign_override :
    (∀ (st : Orch) (G S : String) (O data : Val) (T t : ℚ), S ≠ G →
      st.now ≤ t → t < st.now + T →
      optTruthy (dlookup st.overrides G) = false →
      ((_human_review_window st G data T [⟨S, O, t⟩]).1 = data ∧
       dlookup (_human_review_window st G data T [⟨S, O, t⟩]).2.overrides S
         = some O ∧
       ((_human_review_window st G data T [⟨S, O, t⟩]).2.step_data G).status
         = .done ∧
       ((_human_review_window st G data T [⟨S, O, t⟩]).2.step_data G).end_ts
         = some t ∧
       (_human_review_window st G data T [⟨S, O, t⟩]).2.events
         = st.events ++ [.review_window_open G T st.now,
                         .override_received S])) ∧
    (∀ (st : Orch) (S W : String) (O OW data : Val) (T u : ℚ), W ≠ S →
      dlookup st.overrides S = some O → O.truthy = true →
      st.now ≤ u → u < st.now + T →
      (_human_review_window st S data T [⟨W, OW, u⟩]).1 = O) := by
  constructor
  · intro st G S O data T t hSG h1 h2 hov
    have hw : inWindow st.now (st.now + T) ⟨S, O, t⟩ = true := by
      simp [inWindow, h1, h2]
    have hne : dlookup (dstore st.overrides S O) G = dlookup st.overrides G :=
      dlookup_dstore_ne st.overrides S G O (Ne.symm hSG)
    refine ⟨?_, ?_, ?_, ?_, ?_⟩ <;>
      simp only [_human_review_window, List.find?, hw, updStep, emit]
    · cases hlk : dlookup st.overrides G with
      | none => simp [hne, hlk]
      | some v =>
          have hvt : v.truthy = false := by
            have := hov; rw [hlk] at this; exact this
          simp [hne, hlk, hvt]
    · simp [dlookup_dstore_self]
    · simp
    · simp
    · simp
  · intro st S W O OW data T u hWS hst hot h1 h2
    have hw : inWindow st.now (st.now + T) ⟨W, OW, u⟩ = true := by
      simp [inWindow, h1, h2]
    have hne : dlookup (dstore st.overrides W OW) S = dlookup st.overrides S :=
      dlookup_dstore_ne st.overrides W S OW (Ne.symm hWS)
    simp [_human_review_window, List.find?, hw, updStep, emit, hne, hst, hot]

/-- C6 witness: both parts of `c6_foreign_override` at concrete inputs:
a foreign-step override "O" for `review_script` submitted at t = 30 while
the `review_research` gate is open, and a later `review_qa`-style gate for
`review_script` woken at u = 40 with "O" still stored. -/
theorem c6_witness :
    ((_human_review_window (initOrch 0) "review_research" (.str "P") 120
        [⟨"review_script", .str "O", 30⟩]).1 = .str "P" ∧
     dlookup (_human_review_window (initOrch 0) "review_research" (.str "P")
        120 [⟨"review_script", .str "O", 30⟩]).2.overrides "review_script"
       = some (.str "O") ∧
     ((_human_review_window (initOrch 0) "review_research" (.str "P") 120
        [⟨"review_script", .str "O", 30⟩]).2.step_data
          "review_research").status = .done ∧
     ((_human_review_window (initOrch 0) "review_research" (.str "P") 120
        [⟨"review_script", .str "O", 30⟩]).2.step_data
          "review_research").end_ts = some 30 ∧
     (_human_review_window (initOrch 0) "review_research" (.str "P") 120
        [⟨"review_script", .str "O", 30⟩]).2.events
       = (initOrch 0).events ++ [.review_window_open "review_research" 120
            (initOrch 0).now, .override_received "review_script"]) ∧
    (_human_review_window
        { initOrch 0 with overrides := [("review_script", .str "O")] }
        "review_script" (.str "D") 120 [⟨"review_research", .str "X", 40⟩]).1
      = .str "O" :=
  ⟨c6_foreign_override.1 (initOrch 0) "review_research" "review_script"
      (.str "O") (.str "P") 120 30 (by decide) (by decide) (by decide)
      (by decide),
   c6_foreign_override.2
      { initOrch 0 with overrides := [("review_script", .str "O")] }
      "review_script" "review_research" (.str "O") (.str "X") (.str "D") 120 40
      (by decide) rfl (by decide) (by decide) (by decide)⟩

/-! ### Refinement-loop lemmas -/

theorem review_script_dict (th : ℚ) (es : List (String × Val)) (i : ℕ) (q : ℚ)
    (hq : dlookup es "overall_score" = some (.num q)) :
    review_script th (.ok (.dict es)) i
      = .dict (dstore (dstore es "iteration" (.num i)) "approved"
          (.bool (th ≤ q))) := by
  have h1 : dlookup (dstore es "iteration" (.num i)) "overall_score"
      = some (.num q) := by
    rw [dlookup_dstore_ne es "iteration" "overall_score" (.num i) (by decide)]
    exact hq
  simp [review_script, dgetOpt, h1, numView]

theorem revApproved_review_script (th : ℚ) (es : List (String × Val)) (i : ℕ)
    (q : ℚ) (hq : dlookup es "overall_score" = some (.num q)) :
    revApproved (review_script th (.ok (.dict es)) i) = decide (th ≤ q) := by
  rw [review_script_dict th es i q hq]
  simp [revApproved, dget, dlookup_dstore_self, Val.truthy]

theorem revApproved_fallback (i : ℕ) (e : String) :
    revApproved (fallbackReview i e) = false := by
  simp [revApproved, fallbackReview, dget, dlookup, Val.truthy]

theorem improveLoopAux_rejected (th : ℚ) (rl : Val → ℕ → Except String Val)
    (rf : Val → Val → Except String Val)
    (hrej : ∀ s i, revApproved (review_script th (rl s i) i) = false)
    (hrf : ∀ s r, ∃ s2, rf s r = .ok s2) :
    ∀ rem, 1 ≤ rem → ∀ s r0 its rc vc, ∃ res,
      improveLoopAux th rl rf rem s r0 its rc vc = .ok res ∧
      res.iterations_taken = its + rem ∧ res.reviewCalls = rc + rem ∧
      res.reviseCalls = vc + (rem - 1) ∧ res.auto_approved = true ∧
      revApproved res.final_review = false := by
  intro rem
  induction rem with
  | zero => intro h; exact absurd h (by decide)
  | succ k ih =>
      intro _ s r0 its rc vc
      rcases Nat.eq_zero_or_pos k with hk | hk
      · subst hk
        refine ⟨⟨s, review_script th (rl s (its + 1)) (its + 1), its + 1, true,
                 rc + 1, vc⟩, ?_, ?_, ?_, ?_, ?_, ?_⟩ <;>
          simp [improveLoopAux, hrej s (its + 1)]
      · obtain ⟨s2, hs2⟩ := hrf s (review_script th (rl s (its + 1)) (its + 1))
        obtain ⟨res, heq, h1, h2, h3, h4, h5⟩ :=
          ih hk s2 (review_script th (rl s (its + 1)) (its + 1)) (its + 1)
            (rc + 1) (vc + 1)
        refine ⟨res, ?_, ?_, ?_, ?_, h4, h5⟩
        · simp [improveLoopAux, hrej s (its + 1), hk, hs2, heq]
        · omega
        · omega
        · omega

theorem improveLoopAux_auto (th : ℚ) (rl : Val → ℕ → Except String Val)
    (rf : Val → Val → Except String Val) :
    ∀ rem s r0 its rc vc res,
      improveLoopAux th rl rf rem s r0 its rc vc = .ok res →
      res.auto_approved = true →
      res.iterations_taken = its + rem ∧
      revApproved res.final_review = false := by
  intro rem
  induction rem with
  | zero =>
      intro s r0 its rc vc res heq ha
      simp [improveLoopAux] at heq
      rw [← heq] at ha
      exact absurd ha (by simp)
  | succ k ih =>
      intro s r0 its rc vc res heq ha
      by_cases hb : revApproved (review_script th (rl s (its + 1)) (its + 1))
          = true
      · simp [improveLoopAux, hb] at heq
        rw [← heq] at ha
        exact absurd ha (by simp)
      · rw [Bool.not_eq_true] at hb
        rcases Nat.eq_zero_or_pos k with hk | hk
        · subst hk
          simp [improveLoopAux, hb] at heq
          rw [← heq]
          exact ⟨by simp, by simpa using hb⟩
        · simp only [improveLoopAux, hb, Bool.false_eq_true, if_false, hk,
            if_true] at heq
          rcases hrf : rf s (review_script th (rl s (its + 1)) (its + 1)) with
            e | s2
          · rw [hrf] at heq; exact absurd heq (by simp)
          · rw [hrf] at heq
            obtain ⟨h1, h2⟩ := ih s2
              (review_script th (rl s (its + 1)) (its + 1)) (its + 1)
              (rc + 1) (vc + 1) res heq ha
            exact ⟨by omega, h2⟩

/-! ### C2 -/

/-- C2: for every reviewer whose LLM verdict always carries a score
strictly below the approval threshold and `max_iterations = 3`, the loop
performs exactly 3 review calls and 2 revise calls, terminates, and
returns `auto_approved = true`; and in general `auto_approved = true` only
when the iteration counter reached the cap with the final verdict still
rejected. -/
theorem c2_always_rejected_loop :
    (∀ (th : ℚ) (rl : Val → ℕ → Except String Val)
        (rf : Val → Val → Except String Val) (script : Val),
      (∀ s i, ∃ es q, rl s i = .ok (.dict es) ∧
        dlookup es "overall_score" = some (.num q) ∧ q < th) →
      (∀ s r, ∃ s2, rf s r = .ok s2) →
      ∃ res, improve_loop th 3 rl rf script = .ok res ∧
        res.reviewCalls = 3 ∧ res.reviseCalls = 2 ∧
        res.auto_approved = true ∧ res.iterations_taken = 3) ∧
    (∀ (th : ℚ) (maxIter : ℕ) (rl : Val → ℕ → Except String Val)
        (rf : Val → Val → Except String Val) (script : Val) (res : LoopRes),
      improve_loop th maxIter rl rf script = .ok res →
      res.auto_approved = true →
      res.iterations_taken = maxIter ∧ revApproved res.final_review = false) := by
  constructor
  · intro th rl rf script hrl hrf
    have hrej : ∀ s i, revApproved (review_script th (rl s i) i) = false := by
      intro s i
      obtain ⟨es, q, heq, hsc, hlt⟩ := hrl s i
      rw [heq, revApproved_review_script th es i q hsc]
      exact decide_eq_false (not_le.mpr hlt)
    obtain ⟨res, heq, h1, h2, h3, h4, h5⟩ :=
      improveLoopAux_rejected th rl rf hrej hrf 3 (by decide) script
        (.dict [("approved", .bool false), ("overall_score", .num 0)]) 0 0 0
    exact ⟨res, by simpa [improve_loop] using heq, by omega, by omega, h4,
           by omega⟩
  · intro th maxIter rl rf script res heq ha
    have h := improveLoopAux_auto th rl rf maxIter script
      (.dict [("approved", .bool false), ("overall_score", .num 0)]) 0 0 0 res
      (by simpa [improve_loop] using heq) ha
    exact ⟨by omega, h.2⟩

/-- C2 witness: a reviewer always scoring 7 against threshold 8 with
`max_iterations = 3`, and the only-if direction at the concrete run it
produces. -/
theorem c2_witness :
    (∃ res, improve_loop 8 3
        (fun _ _ => .ok (.dict [("overall_score", .num 7)]))
        (fun s _ => .ok s) (.str "s") = .ok res ∧
        res.reviewCalls = 3 ∧ res.reviseCalls = 2 ∧
        res.auto_approved = true ∧ res.iterations_taken = 3) ∧
    ((⟨.str "s", review_script 8 (.ok (.dict [("overall_score", .num 7)])) 3,
        3, true, 3, 2⟩ : LoopRes).iterations_taken = 3 ∧
      revApproved (⟨.str "s",
        review_script 8 (.ok (.dict [("overall_score", .num 7)])) 3,
        3, true, 3, 2⟩ : LoopRes).final_review = false) :=
  ⟨c2_always_rejected_loop.1 8
      (fun _ _ => .ok (.dict [("overall_score", .num 7)])) (fun s _ => .ok s)
      (.str "s")
      (fun _ _ => ⟨[("overall_score", .num 7)], 7, rfl, rfl, by decide⟩)
      (fun s _ => ⟨s, rfl⟩),
   c2_always_rejected_loop.2 8 3
      (fun _ _ => .ok (.dict [("overall_score", .num 7)])) (fun s _ => .ok s)
      (.str "s")
      ⟨.str "s", review_script 8 (.ok (.dict [("overall_score", .num 7)])) 3,
        3, true, 3, 2⟩ rfl rfl⟩

/-! ### C3 -/

/-- C3: in every iteration the verdict's `approved` flag — the one the
loop consults — is recomputed as `score >= threshold`, whatever approval
flag the reviewer's raw verdict carried; and when the first review already
scores at or above the threshold, the loop performs exactly 1 review call,
0 revise calls, and returns `auto_approved = false`. -/
theorem c3_threshold_is_sole_authority :
    (∀ (th : ℚ) (es : List (String × Val)) (i : ℕ) (q : ℚ),
      dlookup es "overall_score" = some (.num q) →
      (revApproved (review_script th (.ok (.dict es)) i) = true ↔ th ≤ q)) ∧
    (∀ (th : ℚ) (maxIter : ℕ) (rl : Val → ℕ → Except String Val)
        (rf : Val → Val → Except String Val) (script : Val)
        (es : List (String × Val)) (q : ℚ),
      1 ≤ maxIter → rl script 1 = .ok (.dict es) →
      dlookup es "overall_score" = some (.num q) → th ≤ q →
      improve_loop th maxIter rl rf script
        = .ok ⟨script, review_script th (.ok (.dict es)) 1, 1, false, 1, 0⟩) := by
  constructor
  · intro th es i q hq
    rw [revApproved_review_script th es i q hq]
    simp
  · intro th maxIter rl rf script es q hmi hrl hsc hq
    cases maxIter with
    | zero => exact absurd hmi (by decide)
    | succ k =>
        have hb : revApproved (review_script th (.ok (.dict es)) 1) = true := by
          rw [revApproved_review_script th es 1 q hsc]
          exact decide_eq_true hq
        simp [improve_loop, improveLoopAux, hrl, hb]

/-- C3 witness: a raw verdict scoring 9 with its own `approved` flag set
to false against threshold 8: the recomputed flag is true, and the loop
stops after one review with `auto_approved = false`. -/
theorem c3_witness :
    ((revApproved (review_script 8 (.ok (.dict [("overall_score", .num 9),
        ("approved", .bool false)])) 1) = true ↔ (8 : ℚ) ≤ 9) ∧
      improve_loop 8 3
        (fun _ _ => .ok (.dict [("overall_score", .num 9),
          ("approved", .bool false)]))
        (fun s _ => .ok s) (.str "s")
        = .ok ⟨.str "s", review_script 8 (.ok (.dict [("overall_score", .num 9),
            ("approved", .bool false)])) 1, 1, false, 1, 0⟩) :=
  ⟨c3_threshold_is_sole_authority.1 8
      [("overall_score", .num 9), ("approved", .bool false)] 1 9 rfl,
   c3_threshold_is_sole_authority.2 8 3
      (fun _ _ => .ok (.dict [("overall_score", .num 9),
        ("approved", .bool false)]))
      (fun s _ => .ok s) (.str "s")
      [("overall_score", .num 9), ("approved", .bool false)] 9
      (by decide) rfl rfl (by decide)⟩

/-! ### C5 -/

/-- C5: the claim says that a review call raising inside the loop
propagates out as a collaborator failure with the partial iteration not
counted. It is false: with an LLM call that raises on every review and a
revise step that succeeds, `improve_loop` with `max_iterations = 3`
returns normally — `review_script` swallows the exception into a fallback
verdict (score 0.0, approved false) — and all 3 failed iterations are
counted. -/
theorem c5_counterexample :
    improve_loop 8 3 (fun _ _ => .error "llm down") (fun s _ => .ok s)
      (.str "s")
      = .ok ⟨.str "s", fallbackReview 3 "llm down", 3, true, 3, 2⟩ := rfl

/-- C5 (amended): if the LLM review call raises in every iteration, no
failure propagates out of the loop: `review_script` catches the exception
and returns the fallback verdict (score 0.0, approved false), so the loop
runs to the iteration cap, counting every failed review as a full
iteration, and returns normally with a rejected final verdict. -/
theorem c5_review_failure_swallowed (th : ℚ) (maxIter : ℕ)
    (rl : Val → ℕ → Except String Val) (rf : Val → Val → Except String Val)
    (script : Val)
    (hrl : ∀ s i, ∃ e, rl s i = .error e)
    (hrf : ∀ s r, ∃ s2, rf s r = .ok s2) :
    ∃ res, improve_loop th maxIter rl rf script = .ok res ∧
      res.reviewCalls = maxIter ∧ res.iterations_taken = maxIter ∧
      revApproved res.final_review = false := by
  have hrej : ∀ s i, revApproved (review_script th (rl s i) i) = false := by
    intro s i
    obtain ⟨e, he⟩ := hrl s i
    rw [he]
    simpa [review_script] using revApproved_fallback i e
  cases maxIter with
  | zero =>
      refine ⟨⟨script, .dict [("approved", .bool false),
        ("overall_score", .num 0)], 0, false, 0, 0⟩, rfl, rfl, rfl, ?_⟩
      simp [revApproved, dget, dlookup, Val.truthy]
  | succ k =>
      obtain ⟨res, heq, h1, h2, h3, h4, h5⟩ :=
        improveLoopAux_rejected th rl rf hrej hrf (k + 1) (by omega) script
          (.dict [("approved", .bool false), ("overall_score", .num 0)]) 0 0 0
      exact ⟨res, by simpa [improve_loop] using heq, by omega, by omega, h5⟩

/-- C5 witness: an always-raising LLM review with cap 2 and an identity
revise step. -/
theorem c5_witness :
    ∃ res, improve_loop 8 2 (fun _ _ => .error "down") (fun s _ => .ok s)
      (.str "s") = .ok res ∧
      res.reviewCalls = 2 ∧ res.iterations_taken = 2 ∧
      revApproved res.final_review = false :=
  c5_review_failure_swallowed 8 2 (fun _ _ => .error "down")
    (fun s _ => .ok s) (.str "s") (fun _ _ => ⟨"down", rfl⟩)
    (fun s _ => ⟨s, rfl⟩)

/-! ### Concrete run environments for the pipeline-level claims -/

/-- Boolean success projection of a collaborator result. -/
def exOk : Except String Val → Bool
  | .ok _ => true
  | .error _ => false

/-- Error-message projection of a collaborator result. -/
def errOf : Except String Val → Option String
  | .error e => some e
  | .ok _ => none

/-- A script payload with a `segments` list. -/
def segScript : Val := .dict [("segments", .list [.str "s1"])]

/-- A run environment in which every collaborator succeeds with a
well-shaped payload, the reviewer scores 9 against threshold 7.5, and no
override is ever submitted (all three gates time out). -/
def goodScenario : Scenario :=
  { session_id := "S", created_at := "C", T := 120, threshold := 15/2,
    max_iterations := 3, durs := fun _ => 1,
    researchR := .ok (.dict [("pain_points", .list [.str "p"])]),
    ideateR := .ok (.dict [("selected_idea", .str "idea")]),
    scriptR := .ok segScript,
    reviewLlm := fun _ _ _ => .ok (.dict [("overall_score", .num 9)]),
    refineR := fun s _ => .ok s,
    voiceR := .ok (.list [.str "a.mp3"]),
    avatarR := .ok (.list [.str "c.mp4"]),
    imagesR := .ok (.list [.str "i.png"]),
    assembleR := .ok (.dict [("vertical_720p", .str "f.mp4")]),
    techR := .ok (.dict [("approved", .bool true)]),
    metaR := .ok (.dict [("title", .str "t")]),
    subs := fun _ => [] }

/-- The ten steps that invoke a collaborator through `_execute_step`. -/
def collabSteps : List String :=
  ["research", "ideation", "scripting", "qa_loop", "voiceover",
   "avatar_clips", "images", "assembly", "qa_video", "metadata"]

/-- The steps strictly after `X` in the fixed sequence. -/
def stepsAfter (X : String) : List String :=
  (steps_list.dropWhile (fun s => !(s = X))).tail

/-- Replace step `X`'s collaborator by one that raises `e` (for `qa_loop`
the reviewer rejects and the revise collaborator raises). -/
def failAt (sc : Scenario) (X : String) (e : String) : Scenario :=
  if X = "research" then { sc with researchR := .error e }
  else if X = "ideation" then { sc with ideateR := .error e }
  else if X = "scripting" then { sc with scriptR := .error e }
  else if X = "qa_loop" then
    { sc with
      reviewLlm := fun _ _ _ =>
        .ok (.dict [("overall_score", .num (sc.threshold - 1))]),
      refineR := fun _ _ => .error e }
  else if X = "voiceover" then { sc with voiceR := .error e }
  else if X = "avatar_clips" then { sc with avatarR := .error e }
  else if X = "images" then { sc with imagesR := .error e }
  else if X = "assembly" then { sc with assembleR := .error e }
  else if X = "qa_video" then { sc with techR := .error e }
  else if X = "metadata" then { sc with metaR := .error e }
  else sc

/-! ### C4 -/

/-- C4: for every non-review step with a collaborator, when that
collaborator raises while every earlier collaborator succeeds and the
earlier gates time out, the step's state becomes `error` with end time and
duration recorded, the pipeline status becomes `failed`, `current_step`
stays on the failing step, a `step_error` event is emitted, the exception
propagates to the run's caller, every later step of the fixed sequence is
still untouched (`pending`, no timestamps), and the final manifest is not
written. -/
theorem c4_step_failure_stops_run :
    ∀ X ∈ collabSteps,
      errOf (run_pipeline (initOrch 0) (failAt goodScenario X "boom")).1
        = some "boom" ∧
      (run_pipeline (initOrch 0) (failAt goodScenario X "boom")).2.status
        = .failed ∧
      (run_pipeline (initOrch 0) (failAt goodScenario X "boom")).2.current_step
        = some X ∧
      ((run_pipeline (initOrch 0) (failAt goodScenario X "boom")).2.step_data
          X).status = .error ∧
      ((run_pipeline (initOrch 0) (failAt goodScenario X "boom")).2.step_data
          X).end_ts.isSome = true ∧
      ((run_pipeline (initOrch 0) (failAt goodScenario X "boom")).2.step_data
          X).duration_s.isSome = true ∧
      Event.step_error X "boom"
        ∈ (run_pipeline (initOrch 0) (failAt goodScenario X "boom")).2.events ∧
      (∀ Y ∈ stepsAfter X,
        (run_pipeline (initOrch 0) (failAt goodScenario X "boom")).2.step_data
          Y = initStepData) ∧
      (dlookup (run_pipeline (initOrch 0)
          (failAt goodScenario X "boom")).2.results "finalize").isNone
        = true ∧
      (run_pipeline (initOrch 0) (failAt goodScenario X "boom")).2.manifestWritten
        = false := by
  decide

/-- C4 witness: the spec's own end-to-end case, a collaborator failure at
step `voiceover`. -/
theorem c4_witness :
    errOf (run_pipeline (initOrch 0)
        (failAt goodScenario "voiceover" "boom")).1 = some "boom" ∧
    (run_pipeline (initOrch 0) (failAt goodScenario "voiceover" "boom")).2.status
      = .failed ∧
    (run_pipeline (initOrch 0)
        (failAt goodScenario "voiceover" "boom")).2.current_step
      = some "voiceover" ∧
    ((run_pipeline (initOrch 0)
        (failAt goodScenario "voiceover" "boom")).2.step_data
        "voiceover").status = .error ∧
    ((run_pipeline (initOrch 0)
        (failAt goodScenario "voiceover" "boom")).2.step_data
        "voiceover").end_ts.isSome = true ∧
    ((run_pipeline (initOrch 0)
        (failAt goodScenario "voiceover" "boom")).2.step_data
        "voiceover").duration_s.isSome = true ∧
    Event.step_error "voiceover" "boom"
      ∈ (run_pipeline (initOrch 0)
          (failAt goodScenario "voiceover" "boom")).2.events ∧
    (∀ Y ∈ stepsAfter "voiceover",
      (run_pipeline (initOrch 0)
          (failAt goodScenario "voiceover" "boom")).2.step_data Y
        = initStepData) ∧
    (dlookup (run_pipeline (initOrch 0)
        (failAt goodScenario "voiceover" "boom")).2.results
      "finalize").isNone = true ∧
    (run_pipeline (initOrch 0)
        (failAt goodScenario "voiceover" "boom")).2.manifestWritten = false :=
  c4_step_failure_stops_run "voiceover" (by decide)

/-! ### C8 -/

/-- The eleven non-review step ids of the fixed sequence. -/
def nonReviewSteps : List String :=
  ["research", "ideation", "scripting", "qa_loop", "voiceover",
   "avatar_clips", "images", "assembly", "qa_video", "metadata", "finalize"]

/-- The keys of the final manifest record written by `_write_manifest`. -/
def manifestKeys : List String :=
  ["session_id", "created_at", "pipeline_duration_seconds",
   "research_summary", "script", "qa_scores", "media_files",
   "social_metadata", "iterations_taken"]

/-- C8: the claim says the written manifest contains an entry for every
non-review step id. On a full run where every collaborator succeeds and
all review gates resolve by timeout, the pipeline does complete, but the
manifest is keyed by summary fields, not step ids: it has no entry for
`voiceover` (nor `ideation`, ...). -/
theorem c8_counterexample :
    (run_pipeline (initOrch 0) goodScenario).2.status = .completed ∧
    (∀ g, goodScenario.subs g = []) ∧
    ∃ m, (run_pipeline (initOrch 0) goodScenario).1 = .ok m ∧
      exOk (dget m "voiceover") = false ∧
      exOk (dget m "ideation") = false ∧
      exOk (dget m "research_summary") = true := by
  exact ⟨rfl, fun g => rfl, _, rfl, rfl, rfl, rfl⟩

/-- Family of run environments for C8: every collaborator succeeds — the
payloads carry the shape the pipeline extracts from, everything else is
arbitrary — the reviewer approves the first review (score 9 against
threshold 7.5), and no override is ever submitted, so all three review
gates resolve by timeout. -/
def timeoutScenario (sid cat : String) (T : ℚ) (durs : String → ℚ)
    (rES iES sES aES : List (String × Val))
    (idea segs v7 vv av iv tv mv : Val)
    (rf : Val → Val → Except String Val) : Scenario :=
  { session_id := sid, created_at := cat, T := T, threshold := 15/2,
    max_iterations := 3, durs := durs,
    researchR := .ok (.dict rES),
    ideateR := .ok (.dict (("selected_idea", idea) :: iES)),
    scriptR := .ok (.dict (("segments", segs) :: sES)),
    reviewLlm := fun _ _ _ => .ok (.dict [("overall_score", .num 9)]),
    refineR := rf,
    voiceR := .ok vv, avatarR := .ok av, imagesR := .ok iv,
    assembleR := .ok (.dict (("vertical_720p", v7) :: aES)),
    techR := .ok tv, metaR := .ok mv,
    subs := fun _ => [] }

set_option maxHeartbeats 4000000 in
/-- C8 (amended): for every run of the 14-step sequence in which every
collaborator call succeeds and all three review gates resolve by timeout,
the pipeline ends with `status = completed`, the manifest is written, the
engine's results map contains an entry for every non-review step id, and
the written manifest record carries exactly the summary fields
(session_id, created_at, duration, research summary, script, QA scores,
media files, social metadata, iteration count) — keyed by none of the
step ids. -/
theorem c8_completed_run (t0 T : ℚ) (sid cat : String) (durs : String → ℚ)
    (rES iES sES aES : List (String × Val))
    (idea segs v7 vv av iv tv mv : Val)
    (rf : Val → Val → Except String Val) (run : Except String Val × Orch)
    (hrun : run = run_pipeline (initOrch t0)
      (timeoutScenario sid cat T durs rES iES sES aES idea segs v7 vv av iv
        tv mv rf)) :
    ∃ m, run.1 = .ok m ∧ run.2.status = .completed ∧
      run.2.manifestWritten = true ∧
      dlookup run.2.results "finalize" = some m ∧
      (∀ s ∈ nonReviewSteps, (dlookup run.2.results s).isSome = true) ∧
      (∀ k ∈ manifestKeys, exOk (dget m k) = true) ∧
      (∀ s ∈ steps_list, exOk (dget m s) = false) := by
  subst hrun
  refine ⟨_, rfl, rfl, rfl, rfl, ?_, ?_, ?_⟩
  · intro s hs; fin_cases hs <;> rfl
  · intro k hk; fin_cases hk <;> rfl
  · intro s hs; fin_cases hs <;> rfl

/-- C8 witness: the amended run at concrete collaborator payloads. -/
theorem c8_witness :
    ∃ m, (run_pipeline (initOrch 0)
        (timeoutScenario "S" "C" 120 (fun _ => 1) [] [] [] [] (.str "i")
          (.list []) (.str "v") .pynone .pynone .pynone .pynone .pynone
          (fun s _ => .ok s))).1 = .ok m ∧
      (run_pipeline (initOrch 0)
        (timeoutScenario "S" "C" 120 (fun _ => 1) [] [] [] [] (.str "i")
          (.list []) (.str "v") .pynone .pynone .pynone .pynone .pynone
          (fun s _ => .ok s))).2.status = .completed := by
  obtain ⟨m, h1, h2, _⟩ :=
    c8_completed_run 0 120 "S" "C" (fun _ => 1) [] [] [] [] (.str "i")
      (.list []) (.str "v") .pynone .pynone .pynone .pynone .pynone
      (fun s _ => .ok s) _ rfl
  exact ⟨m, h1, h2⟩
